import Mathlib

/-!
# SoupHeatMap — match ingestion and retrieval engine, shallow embedding

A shallow embedding of `src-tauri/src/json_processor.rs` and
`src-tauri/src/models.rs` from the SoupHeatMap repository, together with
proofs of the specified properties of the ingestion / retrieval engine.

Modelling conventions:
* Rust `i32` / `i64` fields are modelled as `Int` (no arithmetic in the code
  can overflow on the observed paths; counters only increment).
* File paths are modelled as `String` (the code only ever inspects the path
  via `to_string_lossy`, i.e. as a string).
* `chrono`'s `DateTime<Utc>` is modelled by its epoch-millisecond value
  (`Int`); `Utc.timestamp_millis_opt(ms).single()` succeeds exactly when
  `ms` lies in chrono's representable range, and the code substitutes
  `Utc::now()` on failure, so the translation takes the ambient clock
  as an explicit `now : Int` parameter.
* The file system is modelled by an environment: a root-existence flag plus
  the ordered list of discovered `.json` candidate files, each carrying
  `Option VctMatchData` (`some` = read + parse succeeded, `none` = the read
  or the parse failed; both are handled identically by the code: skip).
* Progress callbacks (`impl Fn(usize, usize)`) are modelled by returning the
  trace of `(processed, total)` invocations alongside the result.
-/

namespace SoupHeatMap

/-! ## Data model (`models.rs`) -/

/-- `Location` — integer map coordinates (`models.rs`). -/
structure Location where
  x : Int
  y : Int
deriving DecidableEq, Repr

/-- `MatchSummary` (`models.rs`); `game_start` is the epoch-millisecond value
of the `DateTime<Utc>`. -/
structure MatchSummary where
  match_id : String
  map : String
  region : String
  game_start : Int
  teams : List String
  score : String
deriving DecidableEq, Repr

/-- `PlayerStats` (`models.rs`). -/
structure PlayerStats where
  puuid : String
  game_name : String
  tag_line : String
  agent : Option String
  team : String
  team_id : String
  score : Int
  kills : Int
  deaths : Int
  assists : Int
  rounds_played : Int
  is_observer : Bool
deriving DecidableEq, Repr

/-- `KillEvent` (`models.rs`). -/
structure KillEvent where
  killer_puuid : String
  victim_puuid : String
  weapon : Option String
  killer_location : Location
  victim_location : Location
  round_num : Int
  round_time_millis : Int
deriving DecidableEq, Repr

/-- `MatchDetail` (`models.rs`). -/
structure MatchDetail where
  match_id : String
  map : String
  region : String
  game_start : Int
  game_length_millis : Int
  rounds_played : Int
  winning_team : String
  players : List PlayerStats
  kill_events : List KillEvent
deriving DecidableEq, Repr

/-- `MatchInfo` — raw parsed match-info block (`models.rs`). -/
structure MatchInfo where
  match_id : String
  map : String
  game_start_millis : Int
  game_length_millis : Int
deriving DecidableEq, Repr

/-- `VctStats` — raw optional per-player stats block (`models.rs`). -/
structure VctStats where
  score : Option Int
  kills : Option Int
  deaths : Option Int
  assists : Option Int
  rounds_played : Option Int
deriving DecidableEq, Repr

/-- `VctPlayer` — raw parsed player entry (`models.rs`). -/
structure VctPlayer where
  puuid : String
  game_name : String
  tag_line : String
  character_id : Option String
  team_id : String
  stats : Option VctStats
deriving DecidableEq, Repr

/-- `FinishingDamage` (`models.rs`). -/
structure FinishingDamage where
  damage_item : Option String
deriving DecidableEq, Repr

/-- `PlayerLocation` — one entry of a kill's player-location snapshot
(`models.rs`). -/
structure PlayerLocation where
  puuid : String
  location : Location
deriving DecidableEq, Repr

/-- `Kill` — raw kill record (`models.rs`). -/
structure Kill where
  killer : String
  victim : String
  finishing_damage : Option FinishingDamage
  killer_location : Option Location
  victim_location : Option Location
  time_since_round_start_millis : Int
  player_locations : List PlayerLocation
deriving DecidableEq, Repr

/-- `PlayerRoundStats` (`models.rs`). -/
structure PlayerRoundStats where
  puuid : String
  kills : List Kill
deriving DecidableEq, Repr

/-- `RoundResult` (`models.rs`). -/
structure RoundResult where
  round_num : Int
  winning_team : Option String
  player_stats : List PlayerRoundStats
deriving DecidableEq, Repr

/-- `VctMatchData` — one raw parsed match document (`models.rs`). -/
structure VctMatchData where
  match_info : MatchInfo
  players : List VctPlayer
  round_results : List RoundResult
deriving DecidableEq, Repr

/-! ## Weapon catalog (`get_weapon_map`, `json_processor.rs:9-50`) -/

/-- `get_weapon_map` — the fixed weapon-UUID-to-name table, modelled as an
association list (the code only ever calls `.get` on it). -/
def get_weapon_map : List (String × String) :=
  [("E336C6B8-418D-9340-D77F-7A9E4CFE0702", "Vandal"),
   ("9C82E19D-4575-0200-1A81-3EACF00CF872", "Vandal"),
   ("1BAA85B4-4C70-1284-64BB-6481DFC3BB4E", "Vandal"),
   ("EE8E8D15-496B-07AC-E5F6-8FAE5D4C7B1A", "Phantom"),
   ("AE3DE142-4D85-2547-DD26-4E90BED35CF7", "Phantom"),
   ("C4883E50-4494-202C-3EC3-6B8A9284F00B", "Bulldog"),
   ("AE3DE142-4D85-2547-DD26-4E90BED35A7B", "Guardian"),
   ("A03B24D3-4319-996D-0F8C-94BBFBA1DFC7", "Operator"),
   ("4ECE3B7E-4BC3-8EB9-E9AD-6DB6EF4D3F9C", "Operator"),
   ("C14908BC-4EF5-ACB9-7B8E-421BD7B8CB6C", "Marshal"),
   ("F7E1B454-4AD4-1063-EC0A-159E56B58941", "Stinger"),
   ("462080D1-4035-2937-7C09-27AA2A5C27A7", "Spectre"),
   ("910BE174-449B-C412-AB22-D0873436B21B", "Bucky"),
   ("EC845BF4-4F79-DDDA-A3DA-0DB3774B2794", "Judge"),
   ("63E6C2B6-4A8E-869C-3D4C-E38355226584", "Ares"),
   ("4EBC1E9F-4EE7-2E0F-F6A6-4E56F38044C2", "Odin"),
   ("29A0CFAB-485B-F5D5-779A-B59F85E204A8", "Classic"),
   ("42DA8CCC-40D5-AFFC-BEEC-15AA47B42EDA", "Shorty"),
   ("44D4E95C-4157-0037-81B2-17841BF2E8E3", "Frenzy"),
   ("E370FA57-4757-3604-3648-499A3F21CC59", "Sheriff"),
   ("2F59173C-4BED-B6C3-2191-DEA9B58E9CF7", "Knife"),
   ("5F0AAF7A-4289-3998-D5FF-EB9A5CF7EF5C", "Melee"),
   ("4ADE7FAA-4CF1-8376-95EF-39884480959B", "Ability")]

/-! ## Region classification (`extract_region_from_path`,
`json_processor.rs:53-67`) -/

/-- Whether the first character list is an initial segment of the second
(the building block of Rust's `str::contains`). -/
def listPre : List Char → List Char → Bool
  | [], _ => true
  | _ :: _, [] => false
  | a :: as, b :: bs => a == b && listPre as bs

/-- Whether the first character list occurs contiguously inside the second. -/
def listInf (needle : List Char) : List Char → Bool
  | [] => listPre needle []
  | c :: cs => listPre needle (c :: cs) || listInf needle cs

/-- Rust `str::contains(tok)`: `tok` occurs as a substring of `hay`.  The
region tokens are pure ASCII, so byte-level and character-level substring
occurrence coincide. -/
def strContains (hay needle : String) : Bool :=
  listInf needle.data hay.data

/-- `extract_region_from_path` — first-match substring search over the path
string against the four region tokens, in the source's fixed order. -/
def extract_region_from_path (path : String) : String :=
  if strContains path "AMERICAS" then "AMERICAS"
  else if strContains path "EMEA" then "EMEA"
  else if strContains path "PACIFIC" then "PACIFIC"
  else if strContains path "CHINA" then "CHINA"
  else "UNKNOWN"

/-! ## Kill-event extraction (`extract_kill_events`,
`json_processor.rs:70-113`) -/

/-- The body of the innermost loop of `extract_kill_events` for one kill
record: resolve the weapon name, skip (`continue`, i.e. `none`) when the
victim location is missing, look the killer up in the per-kill location
snapshot defaulting to the origin. -/
def killEventOfKill (round_num : Int) (kill : Kill) : Option KillEvent :=
  let weapon_name :=
    (kill.finishing_damage.bind (fun fd => fd.damage_item)).bind
      (fun uuid => (get_weapon_map.find? (fun e => e.1 == uuid)).map (fun e => e.2))
  match kill.victim_location with
  | none => none
  | some victim_loc =>
    let killer_loc :=
      ((kill.player_locations.find? (fun pl => pl.puuid == kill.killer)).map
        (fun pl => pl.location)).getD { x := 0, y := 0 }
    some { killer_puuid := kill.killer
           victim_puuid := kill.victim
           weapon := weapon_name
           killer_location := killer_loc
           victim_location := victim_loc
           round_num := round_num
           round_time_millis := kill.time_since_round_start_millis }

/-- `extract_kill_events` — the three nested `for` loops with `continue`
and `push`, as a nested bind / filterMap. -/
def extract_kill_events (round_results : List RoundResult) : List KillEvent :=
  round_results.flatMap fun round_data =>
    round_data.player_stats.flatMap fun player_stat =>
      player_stat.kills.filterMap (killEventOfKill round_data.round_num)

/-! ## Summary transformation (`parse_match_summary`,
`json_processor.rs:116-158`) -/

/-- One `*team_wins.entry(t).or_insert(0) += 1` step on the tally, modelled
on an association list. -/
def updateTally : List (String × Int) → String → List (String × Int)
  | [], t => [(t, 1)]
  | (k, v) :: rest, t =>
    if k = t then (k, v + 1) :: rest else (k, v) :: updateTally rest t

/-- `HashMap::get` on the tally. -/
def lookupTally (m : List (String × Int)) (k : String) : Option Int :=
  (m.find? (fun e => e.1 == k)).map (fun e => e.2)

/-- The body of the round-results loop: tally the round's winner, if any
(`if let Some(winning_team) = &round_result.winning_team`). -/
def tallyStep (m : List (String × Int)) (rr : RoundResult) :
    List (String × Int) :=
  match rr.winning_team with
  | some t => updateTally m t
  | none => m

/-- The `team_wins` map after the round-results loop: seeded with
`Blue ↦ 0, Red ↦ 0`, then incremented once per present `winning_team`. -/
def teamWins (round_results : List RoundResult) : List (String × Int) :=
  round_results.foldl tallyStep [("Blue", 0), ("Red", 0)]

/-- The formatted score string
`format!("{}-{}", team_wins.get("Blue").unwrap_or(&0), team_wins.get("Red").unwrap_or(&0))`. -/
def scoreString (round_results : List RoundResult) : String :=
  toString ((lookupTally (teamWins round_results) "Blue").getD 0) ++ "-" ++
    toString ((lookupTally (teamWins round_results) "Red").getD 0)

/-- The unique-teams loop of `parse_match_summary`: collects team labels in
first-seen order, restricted to `Blue` / `Red`, with a seen-set. -/
def uniqueTeamsAux : List VctPlayer → List String → List String → List String
  | [], teams, _ => teams
  | p :: ps, teams, seen =>
    if (p.team_id == "Blue" || p.team_id == "Red") && !(seen.contains p.team_id) then
      uniqueTeamsAux ps (teams ++ [p.team_id]) (p.team_id :: seen)
    else
      uniqueTeamsAux ps teams seen

/-- Smallest epoch-millisecond value representable by chrono's
`DateTime<Utc>` (year −262144). -/
def chronoMinMillis : Int := -8334632851200000

/-- Largest epoch-millisecond value representable by chrono's
`DateTime<Utc>` (year 262143). -/
def chronoMaxMillis : Int := 8210298412799999

/-- `Utc.timestamp_millis_opt(ms).single().unwrap_or_else(|| Utc::now())`:
an in-range epoch value is taken as is; out of range, the ambient clock
value `now` is substituted. -/
def toUtcTimestamp (ms now : Int) : Int :=
  if chronoMinMillis ≤ ms ∧ ms ≤ chronoMaxMillis then ms else now

/-- `parse_match_summary` (`json_processor.rs:116-158`).  `now` is the
ambient clock read by the `Utc::now()` fallback. -/
def parse_match_summary (path : String) (data : VctMatchData) (now : Int) :
    MatchSummary :=
  { match_id := data.match_info.match_id
    map := data.match_info.map
    region := extract_region_from_path path
    game_start := toUtcTimestamp data.match_info.game_start_millis now
    teams := uniqueTeamsAux data.players [] []
    score := scoreString data.round_results }

/-! ## Detail transformation (`parse_match_detail`,
`json_processor.rs:161-206`) -/

/-- The per-player closure of `parse_match_detail`'s `players` map. -/
def toPlayerStats (player : VctPlayer) : PlayerStats :=
  { puuid := player.puuid
    game_name := player.game_name
    tag_line := player.tag_line
    agent := player.character_id
    team := player.team_id
    team_id := player.team_id
    score := ((player.stats.bind (fun s => s.score)).getD 0)
    kills := ((player.stats.bind (fun s => s.kills)).getD 0)
    deaths := ((player.stats.bind (fun s => s.deaths)).getD 0)
    assists := ((player.stats.bind (fun s => s.assists)).getD 0)
    rounds_played := ((player.stats.bind (fun s => s.rounds_played)).getD 0)
    is_observer := !(player.team_id == "Blue") && !(player.team_id == "Red") }

/-- `parse_match_detail` (`json_processor.rs:161-206`). -/
def parse_match_detail (path : String) (data : VctMatchData) (now : Int) :
    MatchDetail :=
  { match_id := data.match_info.match_id
    map := data.match_info.map
    region := extract_region_from_path path
    game_start := toUtcTimestamp data.match_info.game_start_millis now
    game_length_millis := data.match_info.game_length_millis
    rounds_played := (data.round_results.length : Int)
    winning_team := "Unknown"
    players := data.players.map toPlayerStats
    kill_events := extract_kill_events data.round_results }

/-! ## File-system environment

The engine's only interactions with the outside world are: checking that the
root exists, walking the tree for `.json` files, reading + parsing each one,
and reading the ambient clock.  They are captured by this environment. -/

/-- Model of the file system as the retrieval engine observes it:
`folder` is the requested root path, `rootExists` the result of
`Path::exists`, `files` the ordered `.json` candidate list produced
by the symlink-following walk, each path paired with `some data` when
`fs::read_to_string` + `serde_json::from_str` succeed, `none` when either
fails.  `index` models the global `MATCH_INDEX`: `none` when never built,
otherwise an association list from match id to file path. -/
structure FsEnv where
  folder : String
  rootExists : Bool
  files : List (String × Option VctMatchData)
  index : Option (List (String × String))

/-- Reading and parsing one file addressed by path (used by the index-hit
branch of `get_match_by_id`). -/
def readParse (env : FsEnv) (path : String) : Option VctMatchData :=
  (env.files.find? (fun pd => pd.1 == path)).bind (fun pd => pd.2)

/-! ## Ingestion (`load_json_files_with_progress`,
`json_processor.rs:209-265`) -/

/-- The per-file loop of `load_json_files_with_progress`: on a successful
read + parse, append the summary; otherwise log (unmodelled) and skip;
increment `processed`; report progress when
`processed % 10 == 0 || processed == total || processed == 1`.
Returns the summaries together with the trace of progress-callback
invocations. -/
def ingestAux (now : Int) (total : Nat) :
    List (String × Option VctMatchData) → Nat → List MatchSummary →
      List (Nat × Nat) → List MatchSummary × List (Nat × Nat)
  | [], _, summaries, trace => (summaries, trace)
  | (path, doc) :: rest, processed, summaries, trace =>
    let summaries' :=
      match doc with
      | some data => summaries ++ [parse_match_summary path data now]
      | none => summaries
    let processed' := processed + 1
    let trace' :=
      if processed' % 10 == 0 || processed' == total || processed' == 1 then
        trace ++ [(processed', total)]
      else trace
    ingestAux now total rest processed' summaries' trace'

/-- `load_json_files_with_progress` — fail fast when the root does not
exist, otherwise process every candidate file, never failing on an
individual file.  The second component of the `ok` payload is the progress
trace. -/
def load_json_files_with_progress (env : FsEnv) (now : Int) :
    Except String (List MatchSummary × List (Nat × Nat)) :=
  if env.rootExists then
    Except.ok (ingestAux now env.files.length env.files 0 [] [])
  else
    Except.error ("Folder does not exist: " ++ env.folder)

/-! ## Single-match retrieval (`get_match_by_id`,
`json_processor.rs:303-344`) -/

/-- The index-hit path of `get_match_by_id`: consult `MATCH_INDEX` (if
built), look the id up, and read + parse the recorded file; any failure
falls through to the scan. -/
def indexHit (env : FsEnv) (match_id : String) :
    Option (String × VctMatchData) :=
  env.index.bind fun idx =>
    ((idx.find? (fun e => e.1 == match_id)).map (fun e => e.2)).bind fun path =>
      (readParse env path).map (fun data => (path, data))

/-- The fallback scan of `get_match_by_id`: walk the candidate files in
order, skip unreadable/unparseable ones, return the detail of the first
whose embedded match id equals the requested one, else the not-found
error. -/
def scanFiles (now : Int) (match_id : String) :
    List (String × Option VctMatchData) → Except String MatchDetail
  | [] => Except.error ("Match not found with ID: " ++ match_id)
  | (path, some data) :: rest =>
    if data.match_info.match_id == match_id then
      Except.ok (parse_match_detail path data now)
    else scanFiles now match_id rest
  | (_, none) :: rest => scanFiles now match_id rest

/-- `get_match_by_id` — index first, then existence check on the root, then
the fallback scan. -/
def get_match_by_id (env : FsEnv) (now : Int) (match_id : String) :
    Except String MatchDetail :=
  match indexHit env match_id with
  | some (path, data) => Except.ok (parse_match_detail path data now)
  | none =>
    if env.rootExists then scanFiles now match_id env.files
    else Except.error ("Folder does not exist: " ++ env.folder)

/-! ## Batch retrieval (`get_multiple_match_details_batched`,
`json_processor.rs:347-402`) -/

/-- `slice::chunks` with explicit fuel (the Rust call panics on chunk size
0; every use here supplies positive size, under which the fuel
`l.length` always suffices). -/
def chunksAux (size : Nat) : Nat → List String → List (List String)
  | 0, _ => []
  | _ + 1, [] => []
  | fuel + 1, x :: xs =>
    (x :: xs).take size :: chunksAux size fuel ((x :: xs).drop size)

/-- `match_ids.chunks(batch_size)` — consecutive chunks of `size` elements,
last chunk possibly shorter. -/
def chunksList (size : Nat) (l : List String) : List (List String) :=
  chunksAux size l.length l

/-- One batch of spawned threads plus the join into the index-keyed result
buffer: slot `i` of the buffer receives the result of fetching the `i`-th
id of the chunk (`global_index - batch_start * batch_size = i`), so the
joined buffer in slot order is exactly the chunk mapped over the fetch,
independent of thread completion order. -/
def processChunk (fetch : String → Except String MatchDetail)
    (chunk : List String) : List (Except String MatchDetail) :=
  chunk.map fetch

/-- The `for result in batch_results` loop of one chunk: push each
successful detail (recording a `(results.len(), total)` progress call),
abort on the first error. -/
def pushChunkResults (total : Nat) :
    List (Except String MatchDetail) → List MatchDetail × List (Nat × Nat) →
      Except String (List MatchDetail × List (Nat × Nat))
  | [], acc => Except.ok acc
  | Except.ok detail :: rest, (results, trace) =>
    pushChunkResults total rest
      (results ++ [detail], trace ++ [(results.length + 1, total)])
  | Except.error e :: _, _ =>
    Except.error ("Failed to load match detail: " ++ e)

/-- The outer chunk loop of `get_multiple_match_details_batched`. -/
def runChunks (fetch : String → Except String MatchDetail) (total : Nat) :
    List (List String) → List MatchDetail × List (Nat × Nat) →
      Except String (List MatchDetail × List (Nat × Nat))
  | [], acc => Except.ok acc
  | chunk :: rest, acc =>
    match pushChunkResults total (processChunk fetch chunk) acc with
    | Except.ok acc' => runChunks fetch total rest acc'
    | Except.error e => Except.error e

/-- `get_multiple_match_details_batched` — partition the ids into
consecutive chunks of `batch_size`, fetch each chunk's ids concurrently
joining results back in request order, abort on the first error.  `fetch`
abstracts `get_match_by_id` applied to the ambient file system (each
spawned thread re-runs it against the same folder).  The second component
of the `ok` payload is the progress trace. -/
def get_multiple_match_details_batched
    (fetch : String → Except String MatchDetail) (match_ids : List String)
    (batch_size : Nat) :
    Except String (List MatchDetail × List (Nat × Nat)) :=
  runChunks fetch match_ids.length (chunksList batch_size match_ids) ([], [])

/-- `get_multiple_match_details` — the default entry point: batch size 10,
no-op progress callback. -/
def get_multiple_match_details (fetch : String → Except String MatchDetail)
    (match_ids : List String) :
    Except String (List MatchDetail × List (Nat × Nat)) :=
  get_multiple_match_details_batched fetch match_ids 10

/-! ## Concrete inputs used to instantiate the theorems -/

/-- A match-info block with a given id and start epoch. -/
def mkInfo (mid : String) (startMillis : Int) : MatchInfo :=
  { match_id := mid, map := "Ascent", game_start_millis := startMillis,
    game_length_millis := 0 }

/-- A raw player entry with a given team label and no stats block. -/
def mkPlayer (team : String) : VctPlayer :=
  { puuid := "pu", game_name := "gn", tag_line := "tl", character_id := none,
    team_id := team, stats := none }

/-- A round result with a given winner and no kills. -/
def mkRound (winner : Option String) : RoundResult :=
  { round_num := 0, winning_team := winner, player_stats := [] }

/-- A document whose round winners are `Blue, Blue, Red`. -/
def doc221 : VctMatchData :=
  { match_info := mkInfo "m221" 1000, players := [],
    round_results := [mkRound (some "Blue"), mkRound (some "Blue"),
                      mkRound (some "Red")] }

/-- A document with no round results. -/
def docEmptyRounds : VctMatchData :=
  { match_info := mkInfo "m0" 1000, players := [], round_results := [] }

/-- A document whose start epoch (`i64::MAX`) is outside chrono's
representable range, forcing the `Utc::now()` fallback. -/
def overflowDoc : VctMatchData :=
  { match_info := mkInfo "mOv" 9223372036854775807, players := [],
    round_results := [] }

/-- A document with players on teams `Blue`, `Red`, `Neutral` and `""`. -/
def observerDoc : VctMatchData :=
  { match_info := mkInfo "mObs" 1000,
    players := [mkPlayer "Blue", mkPlayer "Red", mkPlayer "Neutral",
                mkPlayer ""],
    round_results := [] }

/-- A kill record with no victim location. -/
def killNoVictim : Kill :=
  { killer := "K", victim := "V", finishing_damage := none,
    killer_location := none, victim_location := none,
    time_since_round_start_millis := 7, player_locations := [] }

/-- A kill record with a victim location whose location snapshot has no
entry for the killer. -/
def killNoSnapshot : Kill :=
  { killer := "K", victim := "V", finishing_damage := none,
    killer_location := none, victim_location := some { x := 3, y := 4 },
    time_since_round_start_millis := 7,
    player_locations := [{ puuid := "other", location := { x := 1, y := 2 } }] }

/-- An environment holding a single parseable document with match id
`m221`, no index built. -/
def envOneFile : FsEnv :=
  { folder := "root", rootExists := true,
    files := [("root/a.json", some doc221)], index := none }

/-- An environment with one parseable and one corrupt file. -/
def envOneGoodOneBad : FsEnv :=
  { folder := "root", rootExists := true,
    files := [("root/a.json", some doc221), ("root/bad.json", none)],
    index := none }

/-- An environment with twelve corrupt candidate files (progress-trace
instantiation). -/
def envTwelve : FsEnv :=
  { folder := "root", rootExists := true,
    files := (List.range 12).map (fun i => (toString i, none)),
    index := none }

/-- A fixed detail record per match id (used as an abstract fetch result
when instantiating the batch-retrieval theorems). -/
def detailFor (mid : String) : MatchDetail :=
  { match_id := mid, map := "", region := "", game_start := 0,
    game_length_millis := 0, rounds_played := 0, winning_team := "",
    players := [], kill_events := [] }

/-- An always-succeeding fetch function returning `detailFor`. -/
def fetchW : String → Except String MatchDetail :=
  fun mid => Except.ok (detailFor mid)

/-! ## Helper lemmas: score tally -/

theorem lookupTally_cons (k' : String) (v : Int)
    (rest : List (String × Int)) (k : String) :
    lookupTally ((k', v) :: rest) k =
      if k' = k then some v else lookupTally rest k := by
  by_cases h : k' = k
  · have hb : (k' == k) = true := by simpa using h
    simp [lookupTally, List.find?, hb, h]
  · have hb : (k' == k) = false := by simpa using h
    simp [lookupTally, List.find?, hb, h]

theorem lookupTally_updateTally_self (m : List (String × Int)) (t : String) :
    lookupTally (updateTally m t) t = some ((lookupTally m t).getD 0 + 1) := by
  induction m with
  | nil => simp [updateTally, lookupTally_cons, lookupTally]
  | cons e rest ih =>
    obtain ⟨k, v⟩ := e
    by_cases h : k = t
    · subst h
      simp [updateTally, lookupTally_cons]
    · rw [updateTally, if_neg h, lookupTally_cons, lookupTally_cons,
        if_neg h, if_neg h, ih]

theorem lookupTally_updateTally_other (m : List (String × Int)) (t k : String)
    (hne : k ≠ t) :
    lookupTally (updateTally m t) k = lookupTally m k := by
  induction m with
  | nil =>
    have hts : ¬t = k := fun hh => hne hh.symm
    simp [updateTally, lookupTally_cons, lookupTally, hts]
  | cons e rest ih =>
    obtain ⟨k', v⟩ := e
    by_cases h : k' = t
    · subst h
      rw [updateTally, if_pos rfl, lookupTally_cons, lookupTally_cons,
        if_neg (fun hh => hne hh.symm), if_neg (fun hh => hne hh.symm)]
    · rw [updateTally, if_neg h, lookupTally_cons, lookupTally_cons, ih]

theorem lookupTally_foldl_tallyStep (team : String) (rrs : List RoundResult) :
    ∀ (m : List (String × Int)) (b : Int), lookupTally m team = some b →
      lookupTally (rrs.foldl tallyStep m) team =
        some (b + (rrs.countP (fun rr => rr.winning_team == some team) : Int)) := by
  induction rrs with
  | nil => intro m b hm; simpa using hm
  | cons rr rest ih =>
    intro m b hm
    rw [List.foldl_cons, List.countP_cons]
    cases hw : rr.winning_team with
    | none =>
      have hstep : tallyStep m rr = m := by simp [tallyStep, hw]
      rw [hstep, ih m b hm]
      simp
    | some t =>
      have hstep : tallyStep m rr = updateTally m t := by simp [tallyStep, hw]
      rw [hstep]
      by_cases ht : team = t
      · subst ht
        have hself := lookupTally_updateTally_self m team
        rw [hm] at hself
        rw [ih (updateTally m team) (b + 1) (by simpa using hself)]
        simp only [beq_self_eq_true, if_pos, Option.some.injEq]
        push_cast
        ring
      · have hother := lookupTally_updateTally_other m t team ht
        rw [ih (updateTally m t) b (by rw [hother]; exact hm)]
        have hne : (t == team) = false := by
          simpa using fun hh => ht hh.symm
        simp [hne]

theorem scoreString_eq (rrs : List RoundResult) :
    scoreString rrs =
      toString ((rrs.countP (fun rr => rr.winning_team == some "Blue") : Int)) ++
        "-" ++
        toString ((rrs.countP (fun rr => rr.winning_team == some "Red") : Int)) := by
  have hB : lookupTally [("Blue", 0), ("Red", 0)] "Blue" = some 0 := by
    simp [lookupTally, List.find?]
  have hR : lookupTally [("Blue", 0), ("Red", 0)] "Red" = some 0 := by
    simp [lookupTally, List.find?]
  have hB2 := lookupTally_foldl_tallyStep "Blue" rrs _ 0 hB
  have hR2 := lookupTally_foldl_tallyStep "Red" rrs _ 0 hR
  simp only [scoreString, teamWins, hB2, hR2, Option.getD_some, zero_add]

theorem countP_winning (rrs : List RoundResult) (o : Option String) :
    rrs.countP (fun rr => rr.winning_team == o) =
      (rrs.map (fun rr => rr.winning_team)).countP (fun w => w == o) := by
  induction rrs with
  | nil => rfl
  | cons rr rest ih => simp [List.countP_cons, ih]

/-! ## Helper lemmas: ingestion -/

theorem ingestAux_fst (now : Int) (total : Nat)
    (fs : List (String × Option VctMatchData)) :
    ∀ (processed : Nat) (summaries : List MatchSummary)
      (trace : List (Nat × Nat)),
      (ingestAux now total fs processed summaries trace).1 =
        summaries ++ fs.filterMap
          (fun pd => pd.2.map (fun d => parse_match_summary pd.1 d now)) := by
  induction fs with
  | nil => intro processed summaries trace; simp [ingestAux]
  | cons pd rest ih =>
    intro processed summaries trace
    obtain ⟨path, doc⟩ := pd
    cases doc with
    | none => rw [ingestAux]; simp [ih]
    | some data => rw [ingestAux]; simp [ih]

/-- The progress points emitted while processing `n` files after `processed`
already-processed ones. -/
def pointsFrom (total : Nat) : Nat → Nat → List (Nat × Nat)
  | _, 0 => []
  | processed, n + 1 =>
    (if (processed + 1) % 10 == 0 || processed + 1 == total ||
        processed + 1 == 1 then
      [(processed + 1, total)]
    else []) ++ pointsFrom total (processed + 1) n

theorem ingestAux_snd (now : Int) (total : Nat)
    (fs : List (String × Option VctMatchData)) :
    ∀ (processed : Nat) (summaries : List MatchSummary)
      (trace : List (Nat × Nat)),
      (ingestAux now total fs processed summaries trace).2 =
        trace ++ pointsFrom total processed fs.length := by
  induction fs with
  | nil => intro processed summaries trace; simp [ingestAux, pointsFrom]
  | cons pd rest ih =>
    intro processed summaries trace
    obtain ⟨path, doc⟩ := pd
    cases doc <;>
      (rw [ingestAux]
       simp only [List.length_cons, pointsFrom]
       simp [ih]
       all_goals (split <;> simp))

theorem pointsFrom_eq_filter (total : Nat) (n : Nat) :
    ∀ processed : Nat,
      pointsFrom total processed n =
        (((List.range n).map (fun j => processed + j + 1)).filter
          (fun p => p % 10 == 0 || p == total || p == 1)).map
          (fun p => (p, total)) := by
  induction n with
  | zero => intro processed; simp [pointsFrom]
  | succ n ih =>
    intro processed
    rw [pointsFrom, ih (processed + 1), List.range_succ_eq_map]
    have hmap : (List.map (fun j => processed + j + 1)
        (0 :: (List.range n).map Nat.succ)) =
        (processed + 1) :: (List.range n).map (fun j => processed + 1 + j + 1) := by
      simp only [List.map_cons, List.map_map]
      have hfun : ((fun j => processed + j + 1) ∘ Nat.succ) =
          (fun j => processed + 1 + j + 1) := by
        funext j
        simp only [Function.comp]
        omega
      rw [hfun]
    by_cases hc : ((processed + 1) % 10 == 0 || processed + 1 == total ||
        processed + 1 == 1) = true
    · rw [hmap]
      simp only [List.filter_cons, hc, List.map_cons]
      simp
    · have hc' : ((processed + 1) % 10 == 0 || processed + 1 == total ||
          processed + 1 == 1) = false := by
        simpa using hc
      rw [hmap]
      simp only [List.filter_cons, hc', List.map_cons]
      simp

/-! ## Helper lemmas: batch retrieval -/

theorem pushChunkResults_ok (total : Nat) :
    ∀ (rs : List (Except String MatchDetail))
      (acc acc' : List MatchDetail × List (Nat × Nat)),
      pushChunkResults total rs acc = Except.ok acc' →
      ∃ ds, rs = ds.map Except.ok ∧ acc'.1 = acc.1 ++ ds := by
  intro rs
  induction rs with
  | nil =>
    intro acc acc' h
    refine ⟨[], rfl, ?_⟩
    simp only [pushChunkResults, Except.ok.injEq] at h
    rw [← h]
    simp
  | cons r rest ih =>
    intro acc acc' h
    cases r with
    | error e => simp [pushChunkResults] at h
    | ok d =>
      obtain ⟨results, trace⟩ := acc
      rw [pushChunkResults] at h
      obtain ⟨ds, hds, hacc⟩ := ih _ _ h
      exact ⟨d :: ds, by simp [hds], by simpa using hacc⟩

theorem runChunks_ok (fetch : String → Except String MatchDetail)
    (total : Nat) :
    ∀ (cs : List (List String))
      (acc out : List MatchDetail × List (Nat × Nat)),
      runChunks fetch total cs acc = Except.ok out →
      ∃ ds, cs.flatten.map fetch = ds.map Except.ok ∧
        out.1 = acc.1 ++ ds := by
  intro cs
  induction cs with
  | nil =>
    intro acc out h
    refine ⟨[], by simp, ?_⟩
    simp only [runChunks, Except.ok.injEq] at h
    rw [← h]
    simp
  | cons chunk rest ih =>
    intro acc out h
    rw [runChunks] at h
    cases hpush : pushChunkResults total (processChunk fetch chunk) acc with
    | error e => rw [hpush] at h; exact absurd h (by simp)
    | ok acc' =>
      rw [hpush] at h
      obtain ⟨ds1, hds1, hacc1⟩ := pushChunkResults_ok total _ _ _ hpush
      obtain ⟨ds2, hds2, hacc2⟩ := ih _ _ h
      refine ⟨ds1 ++ ds2, ?_, ?_⟩
      · rw [List.flatten_cons, List.map_append, List.map_append]
        rw [processChunk] at hds1
        rw [hds1, hds2]
      · rw [hacc2, hacc1, List.append_assoc]

theorem chunksAux_flatten (size : Nat) (hsize : 0 < size) :
    ∀ (fuel : Nat) (l : List String), l.length ≤ fuel →
      (chunksAux size fuel l).flatten = l := by
  intro fuel
  induction fuel with
  | zero =>
    intro l hl
    have : l = [] := List.eq_nil_of_length_eq_zero (Nat.le_zero.mp hl)
    subst this
    rfl
  | succ fuel ih =>
    intro l hl
    cases l with
    | nil => rfl
    | cons x xs =>
      rw [chunksAux, List.flatten_cons]
      rw [ih ((x :: xs).drop size) ?hlen]
      · exact List.take_append_drop size (x :: xs)
      case hlen =>
        rw [List.length_drop]
        have h1 : (x :: xs).length ≤ fuel + 1 := hl
        simp only [List.length_cons] at h1 ⊢
        omega

theorem chunksList_flatten (size : Nat) (hsize : 0 < size)
    (l : List String) : (chunksList size l).flatten = l :=
  chunksAux_flatten size hsize l.length l (Nat.le_refl _)

theorem chunksAux_length_le (size : Nat) :
    ∀ (fuel : Nat) (l : List String) (c : List String),
      c ∈ chunksAux size fuel l → c.length ≤ size := by
  intro fuel
  induction fuel with
  | zero => intro l c hc; simp [chunksAux] at hc
  | succ fuel ih =>
    intro l c hc
    cases l with
    | nil => simp [chunksAux] at hc
    | cons x xs =>
      rw [chunksAux] at hc
      rcases List.mem_cons.mp hc with h | h
      · rw [h]
        simp
      · exact ih _ _ h

theorem chunksList_length_le (size : Nat) (l : List String)
    (c : List String) (hc : c ∈ chunksList size l) : c.length ≤ size :=
  chunksAux_length_le size l.length l c hc

theorem batched_ok (fetch : String → Except String MatchDetail)
    (ids : List String) (bs : Nat) (hbs : 0 < bs)
    (l : List MatchDetail) (tr : List (Nat × Nat))
    (h : get_multiple_match_details_batched fetch ids bs =
      Except.ok (l, tr)) :
    ids.map fetch = l.map Except.ok := by
  obtain ⟨ds, hmap, hfst⟩ :=
    runChunks_ok fetch ids.length (chunksList bs ids) ([], []) (l, tr) h
  rw [chunksList_flatten bs hbs] at hmap
  simp only [List.nil_append] at hfst
  rw [hmap, hfst]

theorem chunksList_singleton (size : Nat) (hsize : 0 < size)
    (x : String) : chunksList size [x] = [[x]] := by
  rw [chunksList]
  simp only [List.length_cons, List.length_nil]
  rw [chunksAux]
  rw [List.take_of_length_le (by simpa using hsize)]
  rw [List.drop_of_length_le (by simpa using hsize)]
  rfl

/-! ## Helper lemmas: fallback scan -/

theorem scanFiles_not_found (now : Int) (mid : String) :
    ∀ fs : List (String × Option VctMatchData),
      (∀ pd ∈ fs, ∀ d, pd.2 = some d → d.match_info.match_id ≠ mid) →
      scanFiles now mid fs =
        Except.error ("Match not found with ID: " ++ mid) := by
  intro fs
  induction fs with
  | nil => intro _; rfl
  | cons pd rest ih =>
    intro hall
    obtain ⟨path, doc⟩ := pd
    cases doc with
    | none =>
      rw [scanFiles]
      exact ih fun pd hpd => hall pd (List.mem_cons_of_mem _ hpd)
    | some data =>
      have hne : data.match_info.match_id ≠ mid :=
        hall (path, some data) (List.mem_cons_self _ _) data rfl
      rw [scanFiles, if_neg (by simpa using hne)]
      exact ih fun pd hpd => hall pd (List.mem_cons_of_mem _ hpd)

/-! ## Claim theorems -/

/-- C2 (amended): the Record Transformer's two entry points are
deterministic pure functions of `(path, document)` for every document whose
start epoch lies within chrono's representable range: the outputs do not
depend on the ambient clock, so two invocations on the same pair agree.
(The counterexample `parse_out_of_range_nondeterministic_cex` shows the
unrestricted claim fails: an out-of-range epoch substitutes the current
time.) -/
theorem parse_deterministic_in_range (path : String) (data : VctMatchData)
    (now₁ now₂ : Int)
    (h : chronoMinMillis ≤ data.match_info.game_start_millis ∧
      data.match_info.game_start_millis ≤ chronoMaxMillis) :
    parse_match_summary path data now₁ = parse_match_summary path data now₂ ∧
      parse_match_detail path data now₁ = parse_match_detail path data now₂ := by
  constructor <;>
    simp [parse_match_summary, parse_match_detail, toUtcTimestamp, h]

/-- Witness for `parse_deterministic_in_range` at a concrete in-range
document and two distinct clock values. -/
theorem parse_deterministic_in_range_witness :
    parse_match_summary "root/a.json" doc221 0 =
      parse_match_summary "root/a.json" doc221 99 :=
  (parse_deterministic_in_range "root/a.json" doc221 0 99 (by decide)).1

/-- C2 (counterexample): on a document whose start epoch (`i64::MAX`) is
outside chrono's representable range, two invocations of the summary
transformer at different ambient clock values (`Utc::now()` reads 0 and 1)
produce different outputs — the transformation is not a deterministic
function of `(path, document)` alone. -/
theorem parse_out_of_range_nondeterministic_cex :
    parse_match_summary "p" overflowDoc 0 ≠ parse_match_summary "p" overflowDoc 1 := by
  intro h
  have := congrArg MatchSummary.game_start h
  simp [parse_match_summary, toUtcTimestamp, overflowDoc, mkInfo,
    chronoMinMillis, chronoMaxMillis] at this

/-- C3: kill-event extraction iterates rounds, per-round player stats and
their kill records; a kill with no victim location yields no event, and a
kill with a victim location but no snapshot entry for the killer yields an
event whose killer location is the origin `(0, 0)`. -/
theorem kill_event_extraction_rules (round_results : List RoundResult)
    (rn : Int) (k : Kill) :
    (k.victim_location = none → killEventOfKill rn k = none) ∧
    (∀ loc, k.victim_location = some loc →
      k.player_locations.find? (fun pl => pl.puuid == k.killer) = none →
      ∃ e, killEventOfKill rn k = some e ∧
        e.killer_location = { x := 0, y := 0 } ∧
        e.victim_location = loc) ∧
    extract_kill_events round_results =
      round_results.flatMap (fun round_data =>
        round_data.player_stats.flatMap (fun player_stat =>
          player_stat.kills.filterMap (killEventOfKill round_data.round_num))) := by
  refine ⟨?_, ?_, rfl⟩
  · intro h
    simp [killEventOfKill, h]
  · intro loc hloc hfind
    refine ⟨{ killer_puuid := k.killer, victim_puuid := k.victim,
              weapon := (k.finishing_damage.bind (fun fd => fd.damage_item)).bind
                (fun uuid => (get_weapon_map.find? (fun e => e.1 == uuid)).map
                  (fun e => e.2)),
              killer_location := { x := 0, y := 0 },
              victim_location := loc,
              round_num := rn,
              round_time_millis := k.time_since_round_start_millis },
            ?_, rfl, rfl⟩
    simp [killEventOfKill, hloc, hfind]

/-- Witness for `kill_event_extraction_rules`: a concrete positionless kill
produces no event; a concrete kill with victim location `(3, 4)` and no
killer snapshot entry produces an event with killer location `(0, 0)`. -/
theorem kill_event_extraction_rules_witness :
    killEventOfKill 1 killNoVictim = none ∧
      ∃ e, killEventOfKill 1 killNoSnapshot = some e ∧
        e.killer_location = { x := 0, y := 0 } ∧
        e.victim_location = { x := 3, y := 4 } :=
  ⟨(kill_event_extraction_rules [] 1 killNoVictim).1 rfl,
   (kill_event_extraction_rules [] 1 killNoSnapshot).2.1
     { x := 3, y := 4 } rfl (by decide)⟩

/-- C8: region classification returns the first of the four tokens
`AMERICAS, EMEA, PACIFIC, CHINA` (in that priority order) occurring as a
substring of the path, and `UNKNOWN` exactly when none occurs. -/
theorem region_classification_first_match (s : String) :
    extract_region_from_path s =
      ((["AMERICAS", "EMEA", "PACIFIC", "CHINA"].find?
        (fun t => strContains s t)).getD "UNKNOWN") ∧
    (extract_region_from_path s = "UNKNOWN" ↔
      ∀ t ∈ ["AMERICAS", "EMEA", "PACIFIC", "CHINA"],
        strContains s t = false) := by
  cases hA : strContains s "AMERICAS" <;>
    cases hE : strContains s "EMEA" <;>
      cases hP : strContains s "PACIFIC" <;>
        cases hC : strContains s "CHINA" <;>
          simp [extract_region_from_path, List.find?, hA, hE, hP, hC]

/-- Witness for `region_classification_first_match` at a concrete path
containing only the `EMEA` token. -/
theorem region_classification_first_match_witness :
    extract_region_from_path "vct/EMEA/m1.json" =
      ((["AMERICAS", "EMEA", "PACIFIC", "CHINA"].find?
        (fun t => strContains "vct/EMEA/m1.json" t)).getD "UNKNOWN") :=
  (region_classification_first_match "vct/EMEA/m1.json").1

/-- C9: in the detail transformation, a player's `is_observer` flag is true
exactly when the team label is neither `Blue` nor `Red`; on a document with
team labels `Blue, Red, Neutral, ""` the flags are
`false, false, true, true`. -/
theorem is_observer_iff_not_blue_red (path : String) (data : VctMatchData)
    (now : Int) :
    (parse_match_detail path data now).players.map (fun p => p.is_observer) =
      data.players.map
        (fun p => decide (p.team_id ≠ "Blue" ∧ p.team_id ≠ "Red")) ∧
    (parse_match_detail path observerDoc now).players.map
        (fun p => p.is_observer) = [false, false, true, true] := by
  constructor
  · simp only [parse_match_detail, List.map_map]
    refine List.map_congr_left ?_
    intro p _
    by_cases h1 : p.team_id = "Blue" <;> by_cases h2 : p.team_id = "Red" <;>
      simp [toPlayerStats, Function.comp, h1, h2]
  · rfl

/-- C4: the summary's score string is `"<blueWins>-<redWins>"`, where the
wins count round results whose winner is `Blue` resp. `Red` (absent winners
and unknown labels are ignored); winners `[Blue, Blue, Red]` give exactly
`"2-1"` and an empty round-results list gives `"0-0"`. -/
theorem summary_score_formula (path : String) (data : VctMatchData)
    (now : Int) :
    (parse_match_summary path data now).score =
      toString ((data.round_results.countP
          (fun rr => rr.winning_team == some "Blue") : Int)) ++ "-" ++
        toString ((data.round_results.countP
          (fun rr => rr.winning_team == some "Red") : Int)) ∧
    (data.round_results.map (fun rr => rr.winning_team) =
        [some "Blue", some "Blue", some "Red"] →
      (parse_match_summary path data now).score = "2-1") ∧
    (data.round_results = [] →
      (parse_match_summary path data now).score = "0-0") := by
  refine ⟨scoreString_eq data.round_results, ?_, ?_⟩
  · intro h
    show scoreString data.round_results = "2-1"
    rw [scoreString_eq, countP_winning _ (some "Blue"),
      countP_winning _ (some "Red"), h]
    decide
  · intro h
    show scoreString data.round_results = "0-0"
    rw [h]
    decide

/-- Witness for `summary_score_formula`: the concrete winner lists
`[Blue, Blue, Red]` and `[]` produce `"2-1"` and `"0-0"`. -/
theorem summary_score_formula_witness :
    (parse_match_summary "p" doc221 0).score = "2-1" ∧
      (parse_match_summary "p" docEmptyRounds 0).score = "0-0" :=
  ⟨(summary_score_formula "p" doc221 0).2.1 rfl,
   (summary_score_formula "p" docEmptyRounds 0).2.2 rfl⟩

/-- C6: ingestion never fails because of an individual file — with an
existing root it returns `ok` with exactly the summaries of the files whose
read and parse succeeded (corrupt ones are skipped); one valid plus one
corrupt file give exactly one summary; the only total failure is the
root-path error. -/
theorem ingestion_tolerates_bad_files (env : FsEnv) (now : Int) :
    (env.rootExists = true →
      ∃ trace, load_json_files_with_progress env now =
        Except.ok (env.files.filterMap
          (fun pd => pd.2.map (fun d => parse_match_summary pd.1 d now)),
          trace)) ∧
    (env.rootExists = false →
      load_json_files_with_progress env now =
        Except.error ("Folder does not exist: " ++ env.folder)) ∧
    (∀ p₁ d p₂, env.rootExists = true →
      env.files = [(p₁, some d), (p₂, none)] →
      ∃ trace, load_json_files_with_progress env now =
        Except.ok ([parse_match_summary p₁ d now], trace)) := by
  refine ⟨?_, ?_, ?_⟩
  · intro hroot
    refine ⟨(ingestAux now env.files.length env.files 0 [] []).2, ?_⟩
    rw [load_json_files_with_progress, if_pos hroot]
    congr 1
    rw [Prod.ext_iff]
    refine ⟨?_, rfl⟩
    rw [ingestAux_fst now env.files.length env.files 0 [] []]
    simp
  · intro hroot
    rw [load_json_files_with_progress, if_neg (by simp [hroot])]
  · intro p₁ d p₂ hroot hfiles
    refine ⟨(ingestAux now env.files.length env.files 0 [] []).2, ?_⟩
    rw [load_json_files_with_progress, if_pos hroot]
    congr 1
    rw [Prod.ext_iff]
    refine ⟨?_, rfl⟩
    rw [ingestAux_fst now env.files.length env.files 0 [] [], hfiles]
    simp

/-- Witness for `ingestion_tolerates_bad_files`: a concrete directory with
one parseable and one corrupt file yields exactly one summary. -/
theorem ingestion_tolerates_bad_files_witness :
    ∃ trace, load_json_files_with_progress envOneGoodOneBad 0 =
      Except.ok ([parse_match_summary "root/a.json" doc221 0], trace) :=
  (ingestion_tolerates_bad_files envOneGoodOneBad 0).2.2
    "root/a.json" doc221 "root/bad.json" rfl rfl

/-- C7: over any candidate file list, the progress callback is invoked with
`(processed, total)` exactly at the processed counts `p ∈ 1..total` with
`p % 10 = 0`, or `p = total` (the last file), or `p = 1` (the first file),
in order — and at no other point. -/
theorem ingestion_progress_points (env : FsEnv) (now : Int)
    (hroot : env.rootExists = true) :
    ∃ summaries, load_json_files_with_progress env now =
      Except.ok (summaries,
        (((List.range env.files.length).map (fun j => j + 1)).filter
          (fun p => p % 10 == 0 || p == env.files.length || p == 1)).map
          (fun p => (p, env.files.length))) := by
  refine ⟨(ingestAux now env.files.length env.files 0 [] []).1, ?_⟩
  rw [load_json_files_with_progress, if_pos hroot]
  congr 1
  rw [Prod.ext_iff]
  refine ⟨rfl, ?_⟩
  rw [ingestAux_snd now env.files.length env.files 0 [] []]
  rw [pointsFrom_eq_filter env.files.length env.files.length 0]
  simp

/-- Witness for `ingestion_progress_points`: with twelve candidate files the
callback trace is exactly `[(1, 12), (10, 12), (12, 12)]`. -/
theorem ingestion_progress_points_witness :
    ∃ summaries, load_json_files_with_progress envTwelve 0 =
      Except.ok (summaries, [(1, 12), (10, 12), (12, 12)]) := by
  obtain ⟨s, hs⟩ := ingestion_progress_points envTwelve 0 rfl
  refine ⟨s, ?_⟩
  rw [hs]
  congr 1

/-- C1: whenever batched retrieval returns a result list, the `i`-th result
is the (successful) detail fetched for the `i`-th requested identifier (so
the output order equals the input order regardless of per-thread completion
order); the identifiers are processed in consecutive chunks of
`batch_size`, whose concatenation restores the input; and the default entry
point delegates with chunk size 10. -/
theorem getMany_preserves_input_order
    (fetch : String → Except String MatchDetail) (ids : List String)
    (bs : Nat) (hbs : 0 < bs) :
    (∀ l tr, get_multiple_match_details_batched fetch ids bs =
        Except.ok (l, tr) →
      l.length = ids.length ∧
        ∀ i (hl : i < l.length) (hi : i < ids.length),
          fetch (ids.get ⟨i, hi⟩) = Except.ok (l.get ⟨i, hl⟩)) ∧
    (chunksList bs ids).flatten = ids ∧
    (∀ c ∈ chunksList bs ids, c.length ≤ bs) ∧
    get_multiple_match_details fetch ids =
      get_multiple_match_details_batched fetch ids 10 := by
  refine ⟨?_, chunksList_flatten bs hbs ids,
    fun c hc => chunksList_length_le bs ids c hc, rfl⟩
  intro l tr h
  have hmap := batched_ok fetch ids bs hbs l tr h
  have hlen : ids.length = l.length := by
    have := congrArg List.length hmap
    simpa using this
  refine ⟨hlen.symm, ?_⟩
  intro i hl hi
  have h2 := congrArg (fun xs => xs[i]?) hmap
  simp only [List.getElem?_map] at h2
  rw [List.getElem?_eq_getElem hi, List.getElem?_eq_getElem hl] at h2
  simp only [Option.map_some'] at h2
  simp only [List.get_eq_getElem]
  exact Option.some.inj h2

/-- Witness for `getMany_preserves_input_order` at chunk size 2 over three
identifiers with an always-succeeding fetch. -/
theorem getMany_preserves_input_order_witness :
    (chunksList 2 ["a", "b", "c"]).flatten = ["a", "b", "c"] ∧
      [detailFor "a", detailFor "b", detailFor "c"].length =
        (["a", "b", "c"] : List String).length :=
  ⟨(getMany_preserves_input_order fetchW ["a", "b", "c"] 2 (by decide)).2.1,
   ((getMany_preserves_input_order fetchW ["a", "b", "c"] 2 (by decide)).1
     [detailFor "a", detailFor "b", detailFor "c"]
     [(1, 3), (2, 3), (3, 3)] rfl).1⟩

/-- C5: if the index misses and the completed fallback scan finds no file
whose embedded match id equals the requested one, single-match retrieval
fails with a not-found error naming that identifier; a batch containing
that identifier can never return a result list, and (for the singleton
batch) fails with the equivalent wrapped error. -/
theorem not_found_error_and_batch_abort (env : FsEnv) (now : Int)
    (mid : String)
    (hIdx : indexHit env mid = none)
    (hRoot : env.rootExists = true)
    (hScan : ∀ pd ∈ env.files, ∀ d, pd.2 = some d →
      d.match_info.match_id ≠ mid) :
    get_match_by_id env now mid =
      Except.error ("Match not found with ID: " ++ mid) ∧
    (∀ ids bs, 0 < bs → mid ∈ ids → ∀ l tr,
      get_multiple_match_details_batched (get_match_by_id env now) ids bs ≠
        Except.ok (l, tr)) ∧
    (∀ bs, 0 < bs →
      get_multiple_match_details_batched (get_match_by_id env now) [mid] bs =
        Except.error
          ("Failed to load match detail: Match not found with ID: " ++ mid)) := by
  have hone : get_match_by_id env now mid =
      Except.error ("Match not found with ID: " ++ mid) := by
    rw [get_match_by_id.eq_def, hIdx]
    simp only [hRoot, if_true]
    exact scanFiles_not_found now mid env.files hScan
  refine ⟨hone, ?_, ?_⟩
  · intro ids bs hbs hmem l tr hok
    have hmap := batched_ok (get_match_by_id env now) ids bs hbs l tr hok
    have hin : get_match_by_id env now mid ∈ ids.map (get_match_by_id env now) :=
      List.mem_map_of_mem _ hmem
    rw [hmap] at hin
    obtain ⟨d, _, hd⟩ := List.mem_map.mp hin
    rw [hone] at hd
    exact absurd hd (by simp)
  · intro bs hbs
    rw [get_multiple_match_details_batched, chunksList_singleton bs hbs]
    rw [runChunks, processChunk, List.map_cons, List.map_nil, hone]
    rw [pushChunkResults]
    rw [show ("Failed to load match detail: " ++
        ("Match not found with ID: " ++ mid)) =
      ("Failed to load match detail: Match not found with ID: " ++ mid) by
        rw [← String.append_assoc]
        rfl]

/-- Witness for `not_found_error_and_batch_abort`: a concrete environment
whose only file holds match `m221`, queried for the absent id `nope`. -/
theorem not_found_error_and_batch_abort_witness :
    get_match_by_id envOneFile 0 "nope" =
      Except.error ("Match not found with ID: " ++ "nope") := by
  refine (not_found_error_and_batch_abort envOneFile 0 "nope" rfl rfl ?_).1
  intro pd hpd d hd
  simp only [envOneFile, List.mem_cons, List.not_mem_nil, or_false] at hpd
  rw [hpd] at hd
  simp only [Option.some.injEq] at hd
  rw [← hd]
  decide

end SoupHeatMap
